import Mathlib

/-!
Verification of the pagination engine and cycle resources of the
linear-mcp repository.

The definitions below are a shallow embedding of:
- the pagination utilities (interface `PaginatedResult`, free function
  `fetchAllPages`, class `Paginator`) from the pagination utility module;
- the client page-size defaults `listTeams` / `listCycles` from
  `src/linear/client.ts`;
- the cycle resource registrations from `src/resources/roadmap.ts`.

Asynchronous backend calls (`Promise`) are modelled as total functions into
`Except E`: a resolved promise is `Except.ok`, a rejected one `Except.error`.
Loops (`while (hasMore)`) are modelled with an explicit fuel parameter; the
loop body is translated literally, and running out of fuel while the loop
guard still holds yields `none` ("did not terminate within `fuel`
iterations"), so termination statements quantify over fuel.
-/

namespace LinearMcp

/-! Data model of the pagination module. `endCursor: string | null` becomes
`Option String` with `none` for `null`; `pageInfo?` becomes an `Option`. -/

structure PageInfo where
  hasNextPage : Bool
  endCursor : Option String
  deriving Repr, DecidableEq

structure PaginatedResult (T : Type) where
  nodes : List T
  pageInfo : Option PageInfo
  deriving Repr, DecidableEq

structure PaginationOptions where
  first : Option Nat
  after : Option String
  deriving Repr, DecidableEq

/-- JavaScript truthiness of an optional string: `null`/`undefined` and the
empty string are falsy, every other string is truthy. Used wherever the
source tests a cursor with `!x`. -/
def strTruthy : Option String → Bool
  | none => false
  | some s => !(s == "")

/-- The guard of the source's metadata test, line 109 / line 57:
`result.pageInfo && result.pageInfo.hasNextPage && result.pageInfo.endCursor`
(the source writes the negation). -/
def PaginatedResult.pageInfoUsable {T : Type} (r : PaginatedResult T) : Bool :=
  match r.pageInfo with
  | none => false
  | some pi => pi.hasNextPage && strTruthy pi.endCursor

/-- The cursor `result.pageInfo.endCursor` read in the advancing branch. -/
def PaginatedResult.cursorOf {T : Type} (r : PaginatedResult T) : Option String :=
  r.pageInfo.bind PageInfo.endCursor

/-- A backend page fetcher: `(options) => Promise<PaginatedResult<T>>`,
with promise rejection modelled by `Except.error`. -/
def PageFetcher (E T : Type) := PaginationOptions → Except E (PaginatedResult T)

/-- A fetcher that never rejects, from a pure page function. -/
def pureFetch {E T : Type} (f : PaginationOptions → PaginatedResult T) :
    PageFetcher E T := fun o => Except.ok (f o)

/-- The private mutable fields of class `Paginator<T>`: `first`,
`currentCursor?: string` and `hasMore`. The fetch function is passed
separately since it is immutable. -/
structure PaginatorState where
  first : Nat
  currentCursor : Option String
  hasMore : Bool
  deriving Repr, DecidableEq

namespace Paginator

/-- The constructor `new Paginator(fetchPage, first)`: no fetch is
performed, `currentCursor` is left `undefined`, `hasMore = true`. -/
def init (first : Nat) : PaginatorState :=
  { first := first, currentCursor := none, hasMore := true }

/-- The state-update block of `nextPage` (source lines 108-118): first the
metadata test (`hasMore = false` on unusable metadata, otherwise
`currentCursor = endCursor`), then the short-page safety check
(`nodes.length < first` forces `hasMore = false`). -/
def updateState {T : Type} (s : PaginatorState) (result : PaginatedResult T) :
    PaginatorState :=
  let s1 := if result.pageInfoUsable then { s with currentCursor := result.cursorOf }
            else { s with hasMore := false }
  if result.nodes.length < s.first then { s1 with hasMore := false } else s1

/-- Method `nextPage()` (source lines 98-121): when `hasMore` is false an
empty page `{ nodes: [] }` is returned without calling the backend;
otherwise the backend is called with `{ first, after: currentCursor }`, a
rejection propagates (leaving the fields untouched, since the updates
follow the `await`), and on success the state update above runs. The
returned state is the value of the object's mutable fields after the call. -/
def nextPage {E T : Type} (fetch : PageFetcher E T) (s : PaginatorState) :
    Except E (PaginatedResult T) × PaginatorState :=
  if s.hasMore = false then (Except.ok { nodes := [], pageInfo := none }, s)
  else
    match fetch { first := some s.first, after := s.currentCursor } with
    | Except.error e => (Except.error e, s)
    | Except.ok result => (Except.ok result, updateState s result)

/-- Method `hasNextPage()`: a pure read of `hasMore`. -/
def hasNextPage (s : PaginatorState) : Bool :=
  s.hasMore

/-- Method `reset()`: clears the cursor and sets `hasMore = true`. -/
def reset (s : PaginatorState) : PaginatorState :=
  { s with currentCursor := none, hasMore := true }

/-- Method `fetchAll()` (source lines 145-154): `while (hasMore)` fetch the
next page and append its nodes. `fuel` bounds the number of loop
iterations; `some` is the list produced on normal loop exit, `none` means
the guard still held when the fuel ran out. -/
def fetchAllFuel {E T : Type} (fetch : PageFetcher E T) :
    Nat → PaginatorState → List T → Except E (Option (List T))
  | 0, s, acc => if s.hasMore then Except.ok none else Except.ok (some acc)
  | fuel + 1, s, acc =>
    if s.hasMore then
      match nextPage fetch s with
      | (Except.error e, _) => Except.error e
      | (Except.ok r, s2) => fetchAllFuel fetch fuel s2 (acc ++ r.nodes)
    else Except.ok (some acc)

/-- The sequence of paginator states produced by repeatedly calling
`nextPage` (discarding the returned pages). -/
def iter {E T : Type} (fetch : PageFetcher E T) (s : PaginatorState) :
    Nat → PaginatorState
  | 0 => s
  | n + 1 => (nextPage fetch (iter fetch s n)).2

end Paginator

/-- The source's stopping condition for one fetched page, as `nextPage` and
`fetchAllPages` actually test it: unusable metadata (no `pageInfo`,
`hasNextPage` false, or falsy `endCursor`) or strictly fewer nodes than the
requested page size. -/
def codeStop {T : Type} (first : Nat) (r : PaginatedResult T) : Bool :=
  !r.pageInfoUsable || decide (r.nodes.length < first)

/-- The default applied by the free function: `options.first || 50`
(JavaScript `||`, so `0` also falls back to `50`). -/
def firstOrFifty : Option Nat → Nat
  | none => 50
  | some n => if n = 0 then 50 else n

/-- The loop of the free function `fetchAllPages` (source lines 52-67),
with its two local mutable variables `after` and `hasNextPage` as
arguments; translated line by line like `Paginator.nextPage`. -/
def fetchAllPagesFuel {E T : Type} (fetch : PageFetcher E T) (first : Nat) :
    Nat → Option String → Bool → List T → Except E (Option (List T))
  | 0, _, hasNextPage, acc =>
    if hasNextPage then Except.ok none else Except.ok (some acc)
  | fuel + 1, after, hasNextPage, acc =>
    if hasNextPage then
      match fetch { first := some first, after := after } with
      | Except.error e => Except.error e
      | Except.ok result =>
        let after2 := if result.pageInfoUsable then result.cursorOf else after
        let h1 := if result.pageInfoUsable then hasNextPage else false
        let h2 := if result.nodes.length < first then false else h1
        fetchAllPagesFuel fetch first fuel after2 h2 (acc ++ result.nodes)
    else Except.ok (some acc)

/-- Free function `fetchAllPages(fetchPage, options)` (source lines 43-70):
`first = options.first || 50`, `after = options.after`, loop entered with
`hasNextPage = true`. -/
def fetchAllPages {E T : Type} (fetch : PageFetcher E T)
    (options : PaginationOptions) (fuel : Nat) : Except E (Option (List T)) :=
  fetchAllPagesFuel fetch (firstOrFifty options.first) fuel options.after true []

/-- The stopping condition exactly as the claims word it: the page "has no
pageInfo, or pageInfo.hasNextPage is false, or pageInfo.endCursor is
absent, or nodes.length < first", with "absent" read literally as the
cursor option being `none` (a JavaScript `null`). The source instead tests
truthiness, which additionally stops on an empty-string cursor; compare
`codeStop`. -/
def specStop {T : Type} (first : Nat) (r : PaginatedResult T) : Bool :=
  (match r.pageInfo with
   | none => true
   | some pi => !pi.hasNextPage || pi.endCursor.isNone) ||
    decide (r.nodes.length < first)

/-- A page whose metadata claims a next page but carries an empty-string
cursor: present (not absent) for the claims' wording, falsy for the code. -/
def emptyCursorPage : PaginatedResult Nat :=
  { nodes := [9, 9], pageInfo := some { hasNextPage := true, endCursor := some "" } }

/-- A backend that always serves `emptyCursorPage`. -/
def emptyCursorFetch : PageFetcher Unit Nat := fun _ => Except.ok emptyCursorPage

/-- Page 1 of concrete scenario B: 50 nodes, `hasNextPage: true`,
`endCursor: "c1"`. -/
def scenarioBPage1 : PaginatedResult Nat :=
  { nodes := List.replicate 50 1,
    pageInfo := some { hasNextPage := true, endCursor := some "c1" } }

/-- Page 2 of concrete scenario B: 12 nodes with the inconsistent metadata
`hasNextPage: true`, `endCursor: "c2"`. -/
def scenarioBPage2 : PaginatedResult Nat :=
  { nodes := List.replicate 12 2,
    pageInfo := some { hasNextPage := true, endCursor := some "c2" } }

/-- The backend of concrete scenario B: page 1 for the initial request (no
cursor), page 2 for a request with `after: "c1"`. -/
def scenarioBFetch : PageFetcher Unit Nat := fun o =>
  match o.after with
  | none => Except.ok scenarioBPage1
  | some c =>
    if c == "c1" then Except.ok scenarioBPage2
    else Except.ok { nodes := [], pageInfo := none }

/-- A one-node full page with usable metadata, for the C1 witness. -/
def fullPageC9 : PaginatedResult Nat :=
  { nodes := [5], pageInfo := some { hasNextPage := true, endCursor := some "c9" } }

/-- A backend that always serves the page above. -/
def fullPageC9Fetch : PageFetcher Unit Nat := fun _ => Except.ok fullPageC9

/-- A buggy backend with finitely many items (0 to 4, served two at a
time) whose metadata always claims `hasNextPage: true` with a fresh
non-empty cursor; only the short-page guard can stop a traversal. -/
def buggyFetch : PaginationOptions → PaginatedResult Nat := fun o =>
  match o.after with
  | none =>
    { nodes := [0, 1], pageInfo := some { hasNextPage := true, endCursor := some "k2" } }
  | some c =>
    if c == "k2" then
      { nodes := [2, 3], pageInfo := some { hasNextPage := true, endCursor := some "k4" } }
    else if c == "k4" then
      { nodes := [4], pageInfo := some { hasNextPage := true, endCursor := some "k6" } }
    else
      { nodes := [], pageInfo := some { hasNextPage := true, endCursor := some "k8" } }

/-! Data model for the cycle resources of `src/resources/roadmap.ts` and
the client wrappers of `src/linear/client.ts`. Backend records are
loosely-typed in the source; only the fields the cycle listing reads are
modelled. Dates are abstracted as their already-rendered display strings
(`toLocaleDateString` is locale formatting with no logical content). -/

structure Team where
  id : String
  name : String
  deriving Repr, DecidableEq

structure Cycle where
  id : String
  name : Option String
  startsAt : String
  endsAt : String
  deriving Repr, DecidableEq

/-- Helper `formatCycleDates` (roadmap.ts 500-504), on abstracted dates. -/
def formatCycleDates (c : Cycle) : String :=
  c.startsAt ++ " to " ++ c.endsAt

/-- `LinearClient.listTeams` (client.ts 225-235): destructuring default
`first = 50` (only an absent value falls back), then a single SDK teams
query, modelled by the abstract backend `fetchTeams`. -/
def LinearClient.listTeams (fetchTeams : PaginationOptions → PaginatedResult Team)
    (options : PaginationOptions) : PaginatedResult Team :=
  fetchTeams { first := some (options.first.getD 50), after := options.after }

/-- `LinearClient.listCycles` (client.ts 424-437): default `first = 50`
and a team-id filter, modelled by handing the team id to the backend. -/
def LinearClient.listCycles
    (fetchCycles : String → PaginationOptions → PaginatedResult Cycle)
    (teamId : String) (options : PaginationOptions) : PaginatedResult Cycle :=
  fetchCycles teamId { first := some (options.first.getD 50), after := options.after }

structure ResourceDescriptor where
  uri : String
  name : String
  description : String
  deriving Repr, DecidableEq

/-- The descriptor built for one cycle of one team (roadmap.ts 390-394);
`cycle.name || ...` is JS-truthy defaulting, so an absent or empty name
falls back to `Cycle <id>`. -/
def cycleDescriptor (team : Team) (cycle : Cycle) : ResourceDescriptor :=
  { uri := "linear://cycles/" ++ cycle.id,
    name := match cycle.name with
            | some s => if s == "" then "Cycle " ++ cycle.id else s
            | none => "Cycle " ++ cycle.id,
    description := team.name ++ " cycle: " ++ formatCycleDates cycle }

/-- The list operation of the `cycles` collection resource (roadmap.ts
382-402): one `listTeams()` call with no options, then one
`listCycles(team.id)` call per team — issued concurrently in the source
and joined with `Promise.all`, which returns results in array (team)
order — and a final `.flat()`. -/
def cyclesListResource (fetchTeams : PaginationOptions → PaginatedResult Team)
    (fetchCycles : String → PaginationOptions → PaginatedResult Cycle) :
    List ResourceDescriptor :=
  let teams := LinearClient.listTeams fetchTeams { first := none, after := none }
  (teams.nodes.map fun team =>
    (LinearClient.listCycles fetchCycles team.id
      { first := none, after := none }).nodes.map (cycleDescriptor team)).flatten

/-! URI templates. The template strings below are the ones registered by
`registerCycleResources`; the matcher itself lives in the MCP SDK, outside
this repository. -/

inductive TemplateSeg where
  | lit (s : String)
  | var (name : String)
  deriving Repr, DecidableEq

/-- Splits a path into `/`-separated segments, character by character. -/
def splitSegsAux : List Char → List Char → List String
  | [], cur => [String.mk cur.reverse]
  | c :: rest, cur =>
    if c = '/' then String.mk cur.reverse :: splitSegsAux rest []
    else splitSegsAux rest (c :: cur)

/-- Strips the fixed scheme prefix `linear://`, failing otherwise. -/
def stripScheme (u : String) : Option (List Char) :=
  let sch := "linear://".data
  if sch.isPrefixOf u.data then some (u.data.drop sch.length) else none

/-- A path segment of the form `\x7bname\x7d` is a variable segment;
anything else is a literal. -/
def parseSeg (s : String) : TemplateSeg :=
  if (s.data.head? == some '\x7b') && (s.data.getLast? == some '\x7d') then
    TemplateSeg.var (String.mk (s.data.drop 1).dropLast)
  else TemplateSeg.lit s

/-- Parses a registered template string into its segment structure. -/
def parseTemplate (t : String) : Option (List TemplateSeg) :=
  (stripScheme t).map fun cs => (splitSegsAux cs []).map parseSeg

/-- Segments of a concrete URI under the `linear://` scheme. -/
def uriSegments (u : String) : Option (List String) :=
  (stripScheme u).map fun cs => splitSegsAux cs []

/-- Modelled from the spec: structural matching of one template segment —
a literal segment must equal the URI segment, a variable segment consumes
exactly one non-empty segment. (The actual matcher is the MCP SDK's
URI-template engine, which is not part of this repository; the spec's
Resolve algorithm, section 4.1, is modelled instead. Percent-decoding is
omitted: no input here contains an escape.) -/
def segMatches : TemplateSeg → String → Bool
  | TemplateSeg.lit l, seg => l == seg
  | TemplateSeg.var _, seg => !(seg == "")

/-- Modelled from the spec: a template matches a URI iff the segment
counts agree and every segment pair matches. -/
def templateMatches (t : List TemplateSeg) (segs : List String) : Bool :=
  (t.length == segs.length) && (List.zip t segs).all fun p => segMatches p.1 p.2

/-- Modelled from the spec: structural match of a registered template
string against a concrete URI string. -/
def matchesUri (template uri : String) : Bool :=
  match parseTemplate template, uriSegments uri with
  | some t, some segs => templateMatches t segs
  | _, _ => false

/-- The four (name, template) registrations made by
`registerCycleResources` (roadmap.ts 360-494), in registration order. -/
def cycleResourceTemplates : List (String × String) :=
  [("cycle", "linear://cycles/{id}"),
   ("cycles", "linear://cycles"),
   ("cycleIssues", "linear://cycles/{cycleId}/issues"),
   ("activeCycles", "linear://cycles/active")]

/-- Scenario C teams: three parent teams. -/
def scenarioCTeams : List Team :=
  [⟨"t1", "Team One"⟩, ⟨"t2", "Team Two"⟩, ⟨"t3", "Team Three"⟩]

/-- Scenario C team backend: one page holding the three teams. -/
def scenarioCFetchTeams : PaginationOptions → PaginatedResult Team :=
  fun _ => { nodes := scenarioCTeams, pageInfo := none }

/-- Scenario C cycle backend: each team has exactly two cycles. -/
def scenarioCFetchCycles : String → PaginationOptions → PaginatedResult Cycle :=
  fun id _ =>
    { nodes := [⟨id ++ "-c1", some (id ++ " cycle 1"), "a", "b"⟩,
                ⟨id ++ "-c2", some (id ++ " cycle 2"), "a", "b"⟩],
      pageInfo := none }

/-- A well-behaved backend serving a fixed list from its start: it returns
the first `first` items (the resources below never pass a cursor). -/
def servePage {α : Type} (all : List α) : PaginationOptions → PaginatedResult α :=
  fun o => { nodes := all.take (o.first.getD 50), pageInfo := none }

/-! Basic lemmas about one `nextPage` step. -/

theorem Paginator.reset_eq_init (s : PaginatorState) :
    Paginator.reset s = Paginator.init s.first := rfl

theorem Paginator.nextPage_of_not_hasMore {E T : Type} (fetch : PageFetcher E T)
    (s : PaginatorState) (h : s.hasMore = false) :
    Paginator.nextPage fetch s = (Except.ok { nodes := [], pageInfo := none }, s) := by
  simp [Paginator.nextPage, h]

theorem Paginator.nextPage_ok {E T : Type} (fetch : PageFetcher E T)
    (s : PaginatorState) (r : PaginatedResult T) (hm : s.hasMore = true)
    (h : fetch { first := some s.first, after := s.currentCursor } = Except.ok r) :
    Paginator.nextPage fetch s = (Except.ok r, Paginator.updateState s r) := by
  simp [Paginator.nextPage, hm, h]

theorem Paginator.nextPage_error {E T : Type} (fetch : PageFetcher E T)
    (s : PaginatorState) (e : E) (hm : s.hasMore = true)
    (h : fetch { first := some s.first, after := s.currentCursor } = Except.error e) :
    Paginator.nextPage fetch s = (Except.error e, s) := by
  simp [Paginator.nextPage, hm, h]

theorem Paginator.updateState_first {T : Type} (s : PaginatorState)
    (r : PaginatedResult T) : (Paginator.updateState s r).first = s.first := by
  unfold Paginator.updateState
  split <;> split <;> rfl

theorem Paginator.updateState_hasMore {T : Type} (s : PaginatorState)
    (r : PaginatedResult T) :
    (Paginator.updateState s r).hasMore = (!codeStop s.first r && s.hasMore) := by
  unfold Paginator.updateState codeStop
  by_cases hl : r.nodes.length < s.first <;>
    rcases hu : r.pageInfoUsable <;> simp [hu, hl]

theorem Paginator.updateState_cursor_usable {T : Type} (s : PaginatorState)
    (r : PaginatedResult T) (h : r.pageInfoUsable = true) :
    (Paginator.updateState s r).currentCursor = r.cursorOf := by
  unfold Paginator.updateState
  simp only [h, if_true]
  split <;> rfl

theorem Paginator.nextPage_first {E T : Type} (fetch : PageFetcher E T)
    (s : PaginatorState) : ((Paginator.nextPage fetch s).2).first = s.first := by
  unfold Paginator.nextPage
  split
  · rfl
  · split
    · rfl
    · exact Paginator.updateState_first s _

/-- Claim C3: once `hasMore` is false, `nextPage()` returns the empty page
`{ nodes: [] }` and leaves `first`, `currentCursor` and `hasMore` untouched;
since this holds for every backend fetcher, the backend is not consulted,
and a repeated call behaves identically. -/
theorem claim_C3_nextPage_after_exhaustion {E T : Type} (fetch : PageFetcher E T)
    (s : PaginatorState) (h : s.hasMore = false) :
    Paginator.nextPage fetch s = (Except.ok { nodes := [], pageInfo := none }, s) ∧
    Paginator.nextPage fetch ((Paginator.nextPage fetch s).2) =
      Paginator.nextPage fetch s := by
  have h1 := Paginator.nextPage_of_not_hasMore fetch s h
  exact ⟨h1, by rw [h1]; exact h1⟩

/-- Witness for C3: an exhausted paginator state together with a backend
that always rejects; the call still returns the empty page and the
unchanged state, so no backend interaction can have occurred. -/
theorem claim_C3_witness :
    (({ first := 50, currentCursor := some "c1", hasMore := false } :
        PaginatorState).hasMore = false) ∧
    (Paginator.nextPage (fun _ => Except.error ())
        ({ first := 50, currentCursor := some "c1", hasMore := false } :
          PaginatorState) =
      (Except.ok ({ nodes := ([] : List Nat), pageInfo := none }),
        { first := 50, currentCursor := some "c1", hasMore := false })) :=
  ⟨rfl, (claim_C3_nextPage_after_exhaustion (fun _ => Except.error ())
    { first := 50, currentCursor := some "c1", hasMore := false } rfl).1⟩

/-- Claim C4: `reset()` restores exactly the freshly-constructed state
(`currentCursor` cleared, `hasMore = true`, `first` kept), so a `fetchAll()`
after `reset()` runs the same traversal as `fetchAll()` on a fresh
`Paginator` with the same page size — for every fuel bound, over any
(deterministic) backend; and `first` is preserved by every `nextPage` step,
so the `first` of any reachable state is the constructed one. -/
theorem claim_C4_reset_roundtrip :
    (∀ (E T : Type) (fetch : PageFetcher E T) (s : PaginatorState) (fuel : Nat),
      Paginator.fetchAllFuel fetch fuel (Paginator.reset s) [] =
        Paginator.fetchAllFuel fetch fuel (Paginator.init s.first) []) ∧
    (∀ (E T : Type) (fetch : PageFetcher E T) (s : PaginatorState),
      ((Paginator.nextPage fetch s).2).first = s.first) := by
  constructor
  · intro E T fetch s fuel
    rw [Paginator.reset_eq_init]
  · intro E T fetch s
    exact Paginator.nextPage_first fetch s

/-- Counterexample to C1 as stated: a full page (2 nodes, `first = 2`)
whose metadata has `hasNextPage: true` and the present-but-empty cursor
`""`. None of the claim's four conditions holds, yet `nextPage` sets
`hasMore` to false, because the source tests `!endCursor` (JS truthiness)
rather than absence. -/
theorem claim_C1_counterexample :
    ((Paginator.nextPage emptyCursorFetch
        { first := 2, currentCursor := none, hasMore := true }).2).hasMore = false ∧
    specStop 2 emptyCursorPage = false := by
  constructor
  · rfl
  · rfl

/-- Claim C1 (amended): on a live step (`hasMore = true`) that fetches page
`r`, `hasMore` becomes false iff `r` has no pageInfo, `hasNextPage` is
false, `endCursor` is absent or empty (the source tests JS truthiness), or
`r.nodes.length < first` — the short-page guard indeed applies independent
of the metadata; otherwise `currentCursor` advances to `r`'s `endCursor`.
Moreover on the scenario-B backend, `fetchAll` with `first = 50` stops
after page 2 and returns exactly the 62 fetched items. -/
theorem claim_C1_nextPage_transition :
    (∀ (E T : Type) (fetch : PageFetcher E T) (s : PaginatorState)
        (r : PaginatedResult T),
      s.hasMore = true →
      fetch { first := some s.first, after := s.currentCursor } = Except.ok r →
      ((((Paginator.nextPage fetch s).2).hasMore = false) ↔
        codeStop s.first r = true) ∧
      (codeStop s.first r = false →
        ((Paginator.nextPage fetch s).2).currentCursor = r.cursorOf)) ∧
    Paginator.fetchAllFuel scenarioBFetch 3 (Paginator.init 50) [] =
      Except.ok (some (scenarioBPage1.nodes ++ scenarioBPage2.nodes)) ∧
    (scenarioBPage1.nodes ++ scenarioBPage2.nodes).length = 62 := by
  refine ⟨?_, by rfl, by rfl⟩
  intro E T fetch s r hm hr
  rw [Paginator.nextPage_ok fetch s r hm hr]
  constructor
  · rw [Paginator.updateState_hasMore, hm]
    rcases h : codeStop s.first r <;> simp [h]
  · intro h
    have hu : r.pageInfoUsable = true := by
      rcases hu : r.pageInfoUsable
      · simp [codeStop, hu] at h
      · rfl
    exact Paginator.updateState_cursor_usable s r hu

/-- Witness for C1: a live state with `first = 1` and a backend serving a
full page with usable metadata; the theorem instance shows `hasMore` stays
true and the cursor advances to `"c9"`. -/
theorem claim_C1_witness :
    (({ first := 1, currentCursor := none, hasMore := true } :
        PaginatorState).hasMore = true) ∧
    ((((Paginator.nextPage fullPageC9Fetch
          { first := 1, currentCursor := none, hasMore := true }).2).hasMore =
        false ↔ codeStop 1 fullPageC9 = true) ∧
    (codeStop 1 fullPageC9 = false →
      (((Paginator.nextPage fullPageC9Fetch
          { first := 1, currentCursor := none, hasMore := true }).2).currentCursor =
        fullPageC9.cursorOf))) :=
  ⟨rfl, claim_C1_nextPage_transition.1 Unit Nat fullPageC9Fetch
    { first := 1, currentCursor := none, hasMore := true } fullPageC9 rfl rfl⟩

/-! Lemmas about the iterated state sequence, used for the termination
characterization of `fetchAll`. -/

theorem Paginator.iter_stable {E T : Type} (fetch : PageFetcher E T)
    (s : PaginatorState) (h : s.hasMore = false) (n : Nat) :
    Paginator.iter fetch s n = s := by
  induction n with
  | zero => rfl
  | succ n ih =>
    show (Paginator.nextPage fetch (Paginator.iter fetch s n)).2 = s
    rw [ih, Paginator.nextPage_of_not_hasMore fetch s h]

theorem Paginator.iter_first {E T : Type} (fetch : PageFetcher E T)
    (s : PaginatorState) (n : Nat) :
    (Paginator.iter fetch s n).first = s.first := by
  induction n with
  | zero => rfl
  | succ n ih =>
    show ((Paginator.nextPage fetch (Paginator.iter fetch s n)).2).first = s.first
    rw [Paginator.nextPage_first, ih]

theorem Paginator.iter_shift {E T : Type} (fetch : PageFetcher E T)
    (s : PaginatorState) (n : Nat) :
    Paginator.iter fetch s (n + 1) =
      Paginator.iter fetch ((Paginator.nextPage fetch s).2) n := by
  induction n with
  | zero => rfl
  | succ n ih =>
    show (Paginator.nextPage fetch (Paginator.iter fetch s (n + 1))).2 =
      (Paginator.nextPage fetch
        (Paginator.iter fetch ((Paginator.nextPage fetch s).2) n)).2
    rw [ih]

theorem pureFetch_apply {E T : Type} (f : PaginationOptions → PaginatedResult T)
    (o : PaginationOptions) : pureFetch (E := E) f o = Except.ok (f o) := rfl

theorem Paginator.nextPage_pure {E T : Type}
    (f : PaginationOptions → PaginatedResult T) (s : PaginatorState)
    (hm : s.hasMore = true) :
    Paginator.nextPage (pureFetch (E := E) f) s =
      (Except.ok (f { first := some s.first, after := s.currentCursor }),
        Paginator.updateState s (f { first := some s.first, after := s.currentCursor })) :=
  Paginator.nextPage_ok _ s _ hm rfl

/-- With a pure backend, `fetchAll` exits its loop within `fuel` iterations
iff some iterate of the state sequence has `hasMore = false` within `fuel`
steps. -/
theorem Paginator.fetchAllFuel_pure_some_iff {E T : Type}
    (f : PaginationOptions → PaginatedResult T) :
    ∀ (fuel : Nat) (s : PaginatorState) (acc : List T),
      (∃ res, Paginator.fetchAllFuel (pureFetch (E := E) f) fuel s acc =
        Except.ok (some res)) ↔
      (∃ n, n ≤ fuel ∧ (Paginator.iter (pureFetch (E := E) f) s n).hasMore = false) := by
  intro fuel
  induction fuel with
  | zero =>
    intro s acc
    rcases hm : s.hasMore
    · constructor
      · intro _
        exact ⟨0, Nat.le_refl 0, hm⟩
      · intro _
        exact ⟨acc, by simp [Paginator.fetchAllFuel, hm]⟩
    · constructor
      · rintro ⟨res, hres⟩
        simp [Paginator.fetchAllFuel, hm] at hres
      · rintro ⟨n, hn, hit⟩
        rw [Nat.le_zero.mp hn] at hit
        rw [show Paginator.iter (pureFetch (E := E) f) s 0 = s from rfl, hm] at hit
        cases hit
  | succ fuel ih =>
    intro s acc
    rcases hm : s.hasMore
    · constructor
      · intro _
        exact ⟨0, Nat.zero_le _, hm⟩
      · intro _
        exact ⟨acc, by simp [Paginator.fetchAllFuel, hm]⟩
    · have hnp := Paginator.nextPage_pure (E := E) f s hm
      have hfold : Paginator.fetchAllFuel (pureFetch (E := E) f) (fuel + 1) s acc =
          Paginator.fetchAllFuel (pureFetch (E := E) f) fuel
            ((Paginator.nextPage (pureFetch (E := E) f) s).2)
            (acc ++ (f { first := some s.first, after := s.currentCursor }).nodes) := by
        rw [Paginator.fetchAllFuel, hnp]
        simp [hm]
      rw [hfold, ih]
      constructor
      · rintro ⟨n, hn, hit⟩
        refine ⟨n + 1, Nat.succ_le_succ hn, ?_⟩
        rw [Paginator.iter_shift]
        exact hit
      · rintro ⟨n, hn, hit⟩
        cases n with
        | zero =>
          rw [show Paginator.iter (pureFetch (E := E) f) s 0 = s from rfl, hm] at hit
          cases hit
        | succ m =>
          refine ⟨m, Nat.le_of_succ_le_succ hn, ?_⟩
          rw [Paginator.iter_shift] at hit
          exact hit

/-- Counterexample to C2 as stated: with `first = 2` and a backend whose
every page has 2 nodes, `hasNextPage: true` and the present-but-empty
cursor `""`, `fetchAll` terminates after one page (the source treats the
empty-string cursor as falsy), although no fetched page has fewer nodes
than requested, reports `hasNextPage == false`, or lacks pageInfo or an
endCursor in the claim's sense. -/
theorem claim_C2_counterexample :
    Paginator.fetchAllFuel emptyCursorFetch 1 (Paginator.init 2) [] =
      Except.ok (some [9, 9]) ∧
    specStop 2 emptyCursorPage = false := by
  constructor
  · rfl
  · rfl

/-- One live step of the state sequence flips `hasMore` exactly according
to the source's stopping test on the page fetched at that step. -/
theorem Paginator.iter_succ_hasMore {E T : Type}
    (f : PaginationOptions → PaginatedResult T) (s : PaginatorState) (n : Nat)
    (hm : (Paginator.iter (pureFetch (E := E) f) s n).hasMore = true) :
    (Paginator.iter (pureFetch (E := E) f) s (n + 1)).hasMore =
      !codeStop (Paginator.iter (pureFetch (E := E) f) s n).first
        (f { first := some (Paginator.iter (pureFetch (E := E) f) s n).first,
             after := (Paginator.iter (pureFetch (E := E) f) s n).currentCursor }) := by
  show ((Paginator.nextPage (pureFetch (E := E) f)
    (Paginator.iter (pureFetch (E := E) f) s n)).2).hasMore = _
  rw [Paginator.nextPage_pure (E := E) f _ hm]
  show (Paginator.updateState _ _).hasMore = _
  rw [Paginator.updateState_hasMore, hm, Bool.and_true]

/-- Claim C2 (amended): over a pure backend `f`, `fetchAll()` started on a
fresh paginator exits its loop at some fuel bound iff at some step the
state is still live and the page fetched there fails the source's
continuation test — fewer than `first` nodes, or no pageInfo, or
`hasNextPage` false, or a null-or-empty `endCursor` (the source tests JS
truthiness, so an empty-string cursor also stops, which is the one
departure from the claim's wording). In particular the short-page guard
terminates the buggy backend above, whose metadata always promises another
page: with `first = 2` all 5 items are returned after 3 loop iterations. -/
theorem claim_C2_fetchAll_termination :
    (∀ (E T : Type) (f : PaginationOptions → PaginatedResult T) (first : Nat),
      (∃ fuel res, Paginator.fetchAllFuel (pureFetch (E := E) f) fuel
          (Paginator.init first) [] = Except.ok (some res)) ↔
      (∃ n, (Paginator.iter (pureFetch (E := E) f) (Paginator.init first) n).hasMore = true ∧
        codeStop first (f { first := some first,
                            after := (Paginator.iter (pureFetch (E := E) f)
                              (Paginator.init first) n).currentCursor }) = true)) ∧
    Paginator.fetchAllFuel (pureFetch (E := Unit) buggyFetch) 3 (Paginator.init 2) [] =
      Except.ok (some [0, 1, 2, 3, 4]) := by
  constructor
  · intro E T f first
    have hfuel : (∃ fuel res, Paginator.fetchAllFuel (pureFetch (E := E) f) fuel
        (Paginator.init first) [] = Except.ok (some res)) ↔
        (∃ n, (Paginator.iter (pureFetch (E := E) f)
          (Paginator.init first) n).hasMore = false) := by
      constructor
      · rintro ⟨fuel, res, h⟩
        obtain ⟨n, _, hn⟩ :=
          (Paginator.fetchAllFuel_pure_some_iff (E := E) f fuel
            (Paginator.init first) []).mp ⟨res, h⟩
        exact ⟨n, hn⟩
      · rintro ⟨n, hn⟩
        obtain ⟨res, h⟩ :=
          (Paginator.fetchAllFuel_pure_some_iff (E := E) f n
            (Paginator.init first) []).mpr ⟨n, Nat.le_refl n, hn⟩
        exact ⟨n, res, h⟩
    rw [hfuel]
    have hfirst : ∀ n, (Paginator.iter (pureFetch (E := E) f)
        (Paginator.init first) n).first = first :=
      fun n => Paginator.iter_first _ _ n
    constructor
    · intro hex
      have hspec := Nat.find_spec hex
      rcases hk : Nat.find hex with _ | m
      · rw [hk] at hspec
        exact absurd hspec (by simp [Paginator.iter, Paginator.init])
      · rw [hk] at hspec
        have hlive : (Paginator.iter (pureFetch (E := E) f)
            (Paginator.init first) m).hasMore = true := by
          have hmin := Nat.find_min hex (by rw [hk]; exact Nat.lt_succ_self m)
          rcases h' : (Paginator.iter (pureFetch (E := E) f)
            (Paginator.init first) m).hasMore
          · exact absurd h' hmin
          · rfl
        have hstep := Paginator.iter_succ_hasMore (E := E) f
          (Paginator.init first) m hlive
        rw [hspec] at hstep
        rw [hfirst m] at hstep
        refine ⟨m, hlive, ?_⟩
        rcases h'' : codeStop first (f { first := some first,
                                         after := (Paginator.iter (pureFetch (E := E) f)
                                           (Paginator.init first) m).currentCursor })
        · rw [h''] at hstep
          cases hstep
        · rfl
    · rintro ⟨n, hlive, hstop⟩
      refine ⟨n + 1, ?_⟩
      have hstep := Paginator.iter_succ_hasMore (E := E) f
        (Paginator.init first) n hlive
      rw [hfirst n] at hstep
      rw [hstep, hstop]
      rfl
  · rfl

/-- The local variables of one `fetchAllPages` loop iteration update to
exactly the paginator-state update of `nextPage` on the same page. -/
theorem freeUpdate_eq_updateState {T : Type} (first : Nat) (after : Option String)
    (result : PaginatedResult T) :
    ({ first := first,
       currentCursor := if result.pageInfoUsable then result.cursorOf else after,
       hasMore := if result.nodes.length < first then false
                  else if result.pageInfoUsable then true else false } :
      PaginatorState) =
      Paginator.updateState
        { first := first, currentCursor := after, hasMore := true } result := by
  unfold Paginator.updateState
  rcases hu : result.pageInfoUsable <;> by_cases hl : result.nodes.length < first <;>
    simp [hu, hl]

/-- The free-function loop and the paginator loop agree for every fuel
bound, from corresponding states. -/
theorem fetchAllPagesFuel_eq_fetchAllFuel {E T : Type} (fetch : PageFetcher E T)
    (first : Nat) :
    ∀ (fuel : Nat) (after : Option String) (hm : Bool) (acc : List T),
      fetchAllPagesFuel fetch first fuel after hm acc =
        Paginator.fetchAllFuel fetch fuel
          { first := first, currentCursor := after, hasMore := hm } acc := by
  intro fuel
  induction fuel with
  | zero =>
    intro after hm acc
    rfl
  | succ fuel ih =>
    intro after hm acc
    rcases hm
    · rfl
    · rcases hf : fetch { first := some first, after := after } with e | result
      · simp [fetchAllPagesFuel, Paginator.fetchAllFuel, Paginator.nextPage, hf]
      · have hnp : Paginator.nextPage fetch
            { first := first, currentCursor := after, hasMore := true } =
            (Except.ok result, Paginator.updateState
              { first := first, currentCursor := after, hasMore := true } result) :=
          Paginator.nextPage_ok fetch _ result rfl hf
        rw [show fetchAllPagesFuel fetch first (fuel + 1) after true acc =
            fetchAllPagesFuel fetch first fuel
              (if result.pageInfoUsable then result.cursorOf else after)
              (if result.nodes.length < first then false
               else if result.pageInfoUsable then true else false)
              (acc ++ result.nodes) from by
          simp [fetchAllPagesFuel, hf]]
        rw [ih, freeUpdate_eq_updateState]
        simp [Paginator.fetchAllFuel, hnp]

/-- Claim C5: for every backend and positive page size, `fetchAll()` on a
fresh `Paginator(fetch, first)` performs the same traversal as the free
function `fetchAllPages(fetch, { first })` with no starting cursor: for
every fuel bound they return the same result (same items in the same
order, same error, or both out of fuel). Positivity matters only because
the free function replaces a page size of `0` by 50 (JS `||`). -/
theorem claim_C5_fetchAll_eq_fetchAllPages {E T : Type} (fetch : PageFetcher E T)
    (first : Nat) (h : 0 < first) (fuel : Nat) :
    Paginator.fetchAllFuel fetch fuel (Paginator.init first) [] =
      fetchAllPages fetch { first := some first, after := none } fuel := by
  have h0 : firstOrFifty (some first) = first := by
    simp [firstOrFifty, Nat.pos_iff_ne_zero.mp h]
  rw [fetchAllPages, h0, fetchAllPagesFuel_eq_fetchAllFuel]
  rfl

/-- Witness for C5: the scenario-B backend with `first = 50` and fuel 3;
both traversal forms return the same 62 items. -/
theorem claim_C5_witness :
    0 < 50 ∧
    Paginator.fetchAllFuel scenarioBFetch 3 (Paginator.init 50) [] =
      fetchAllPages scenarioBFetch { first := some 50, after := none } 3 :=
  ⟨by decide, claim_C5_fetchAll_eq_fetchAllPages scenarioBFetch 50 (by decide) 3⟩

/-- Claim C8: a backend rejection is propagated unmodified, both by
`nextPage()` and (for any remaining fuel) by `fetchAll()`; the error value
reaching the caller is exactly the backend's `e`. -/
theorem claim_C8_error_propagation {E T : Type} (fetch : PageFetcher E T)
    (s : PaginatorState) (e : E) (hm : s.hasMore = true)
    (hf : fetch { first := some s.first, after := s.currentCursor } = Except.error e) :
    (Paginator.nextPage fetch s).1 = Except.error e ∧
    ∀ (fuel : Nat) (acc : List T),
      Paginator.fetchAllFuel fetch (fuel + 1) s acc = Except.error e := by
  have h := Paginator.nextPage_error fetch s e hm hf
  refine ⟨by rw [h], ?_⟩
  intro fuel acc
  simp [Paginator.fetchAllFuel, hm, h]

/-- Witness for C8: a fresh paginator over a backend that always rejects
with the string `"boom"`; both `nextPage` and `fetchAll` surface exactly
that error. -/
theorem claim_C8_witness :
    ((Paginator.init 50).hasMore = true) ∧
    ((fun _ => Except.error "boom" : PageFetcher String Nat)
        { first := some 50, after := none } = Except.error "boom") ∧
    ((Paginator.nextPage (fun _ => Except.error "boom" : PageFetcher String Nat)
        (Paginator.init 50)).1 = Except.error "boom") ∧
    (Paginator.fetchAllFuel (fun _ => Except.error "boom" : PageFetcher String Nat)
        1 (Paginator.init 50) [] = Except.error "boom") :=
  ⟨rfl, rfl,
    (claim_C8_error_propagation (fun _ => Except.error "boom") (Paginator.init 50)
      "boom" rfl rfl).1,
    (claim_C8_error_propagation (fun _ => Except.error "boom") (Paginator.init 50)
      "boom" rfl rfl).2 0 []⟩

/-- Claim C9: when the backend rejects, the paginator's fields are exactly
as before the call (the updates are placed after the `await`), so a
subsequent `nextPage()` — with any backend behaviour `g` for the retry —
issues the same request from the same state. -/
theorem claim_C9_state_unchanged_on_error {E T : Type} (fetch : PageFetcher E T)
    (s : PaginatorState) (e : E) (hm : s.hasMore = true)
    (hf : fetch { first := some s.first, after := s.currentCursor } = Except.error e) :
    (Paginator.nextPage fetch s).2 = s ∧
    ∀ (g : PageFetcher E T),
      Paginator.nextPage g ((Paginator.nextPage fetch s).2) =
        Paginator.nextPage g s := by
  have h := Paginator.nextPage_error fetch s e hm hf
  exact ⟨by rw [h], fun g => by rw [h]⟩

/-- Witness for C9: after a failed fetch the state is unchanged, and a
retry against the healthy backend `fullPageC9Fetch` behaves exactly as a
first call from the original state would. -/
theorem claim_C9_witness :
    ((Paginator.init 1).hasMore = true) ∧
    ((fun _ => Except.error () : PageFetcher Unit Nat)
        { first := some 1, after := none } = Except.error ()) ∧
    ((Paginator.nextPage (fun _ => Except.error () : PageFetcher Unit Nat)
        (Paginator.init 1)).2 = Paginator.init 1) ∧
    (Paginator.nextPage fullPageC9Fetch
        ((Paginator.nextPage (fun _ => Except.error () : PageFetcher Unit Nat)
          (Paginator.init 1)).2) =
      Paginator.nextPage fullPageC9Fetch (Paginator.init 1)) :=
  ⟨rfl, rfl,
    (claim_C9_state_unchanged_on_error (fun _ => Except.error ()) (Paginator.init 1)
      () rfl rfl).1,
    (claim_C9_state_unchanged_on_error (fun _ => Except.error ()) (Paginator.init 1)
      () rfl rfl).2 fullPageC9Fetch⟩

/-- Claim C6: the all-cycles listing is the concatenation, in the order
teams are returned by the team listing, of each team's cycle descriptors
in page order (the source's `Promise.all` preserves array order, so the
deterministic denotation below is the result regardless of which backend
call settles first); and in concrete scenario C — 3 teams of 2 cycles —
it is exactly the 6 descriptors in team-major order. -/
theorem claim_C6_cycles_list_order :
    (∀ (fetchTeams : PaginationOptions → PaginatedResult Team)
        (fetchCycles : String → PaginationOptions → PaginatedResult Cycle),
      cyclesListResource fetchTeams fetchCycles =
        ((fetchTeams { first := some 50, after := none }).nodes.map fun team =>
          (fetchCycles team.id { first := some 50, after := none }).nodes.map
            (cycleDescriptor team)).flatten) ∧
    (cyclesListResource scenarioCFetchTeams scenarioCFetchCycles).map
        ResourceDescriptor.uri =
      ["linear://cycles/t1-c1", "linear://cycles/t1-c2",
       "linear://cycles/t2-c1", "linear://cycles/t2-c2",
       "linear://cycles/t3-c1", "linear://cycles/t3-c2"] ∧
    (cyclesListResource scenarioCFetchTeams scenarioCFetchCycles).length = 6 := by
  refine ⟨fun _ _ => rfl, by rfl, by rfl⟩

/-- Counterexample to C7 as stated: the cycle registrar registers both
`linear://cycles/\x7bid\x7d` and `linear://cycles/active`, and the
concrete URI `linear://cycles/active` structurally matches both (the
variable segment binds `id := "active"`). -/
theorem claim_C7_counterexample :
    matchesUri "linear://cycles/{id}" "linear://cycles/active" = true ∧
    matchesUri "linear://cycles/active" "linear://cycles/active" = true := by
  exact ⟨rfl, rfl⟩

/-- Claim C7 (amended): template matching is not unambiguous across the
registrations of the cycle registrar: of its four templates, exactly the
first (`cycle`) and the last (`activeCycles`) match the URI
`linear://cycles/active`, so resolving that URI needs a precedence rule
between registrations (uniqueness holds only per resource name, each name
owning a single template). -/
theorem claim_C7_overlapping_templates :
    (cycleResourceTemplates.filter fun p =>
      matchesUri p.2 "linear://cycles/active").map Prod.fst =
      ["cycle", "activeCycles"] := by
  rfl

/-- Claim C10: the all-cycles listing performs no pagination loop — it
requests a single page of teams and a single page of cycles per team,
both with the default `first = 50` — so over list-backed backends it
returns exactly the first 50 teams' first 50 cycles: a 51st team, or a
team's 51st cycle, is silently omitted (each concrete instance below has
51 candidate rows but lists only 50). -/
theorem claim_C10_single_page_cap :
    (∀ (allTeams : List Team) (allCycles : String → List Cycle),
      cyclesListResource (servePage allTeams) (fun id o => servePage (allCycles id) o) =
        ((allTeams.take 50).map fun t =>
          ((allCycles t.id).take 50).map (cycleDescriptor t)).flatten) ∧
    (cyclesListResource (servePage (List.replicate 51 ⟨"t", "T"⟩))
        (fun _ o => servePage [⟨"c", none, "a", "b"⟩] o)).length = 50 ∧
    (cyclesListResource (servePage [⟨"t", "T"⟩])
        (fun _ o => servePage (List.replicate 51 ⟨"c", none, "a", "b"⟩) o)).length = 50 := by
  refine ⟨fun _ _ => rfl, by decide, by decide⟩

end LinearMcp
